import Mathlib

/-!
Verification of the compliance-scoring core of the `document-ai` repository
(`src/compliance_checker.py`).  Text is modelled as `List Char`, Python
numbers as `ℚ`, and the JSON rule records as structures with `Option` fields
for the optional keys.  The wall-clock reading taken by `_get_timestamp`
(`datetime.now().strftime(...)`) is modelled as an explicit `now : String`
argument to `check_compliance`.
-/

namespace DocAI

/-- Python `str.isspace` on the ASCII whitespace characters, which is what
`str.strip()` / `str.split()` discard (the source text is ASCII-ranged). -/
def pyIsSpace (c : Char) : Bool :=
  c == ' ' || c == '\t' || c == '\n' || c == '\r' || c == '\x0b' || c == '\x0c'

/-- Does `pat` occur at the start of `t`?  (Building block for Python's
substring operators `in` and `str.find`.) -/
def prefixMatch : List Char → List Char → Bool
  | _, [] => true
  | [], _ :: _ => false
  | c :: cs, p :: ps => c == p && prefixMatch cs ps

/-- Python `text.find(kw)`: index of the first occurrence of `kw` in `text`,
`none` standing for Python's `-1`. -/
def strFind : List Char → List Char → Option Nat
  | [], kw => if prefixMatch [] kw then some 0 else none
  | c :: ts, kw =>
      if prefixMatch (c :: ts) kw then some 0
      else (strFind ts kw).map (· + 1)

/-- Python `kw in text` (substring containment). -/
def strContains (text kw : List Char) : Bool := (strFind text kw).isSome

/-- Python `str.lower()` (ASCII case folding suffices for the rule keywords). -/
def pyLower (t : List Char) : List Char := t.map Char.toLower

/-- Left part of Python `str.strip()`. -/
def lstrip (s : List Char) : List Char := s.dropWhile pyIsSpace

/-- Right part of Python `str.strip()`. -/
def rstrip (s : List Char) : List Char := (s.reverse.dropWhile pyIsSpace).reverse

/-- Python `str.strip()`. -/
def pyStrip (s : List Char) : List Char := rstrip (lstrip s)

/-- Helper for `pySplit`, accumulating the current word reversed. -/
def pySplitAux : List Char → List Char → List (List Char)
  | [], acc => if acc.isEmpty then [] else [acc.reverse]
  | c :: rest, acc =>
      if pyIsSpace c then
        if acc.isEmpty then pySplitAux rest []
        else acc.reverse :: pySplitAux rest []
      else pySplitAux rest (c :: acc)

/-- Python `str.split()` with no argument: split on whitespace runs,
discarding empty tokens. -/
def pySplit (s : List Char) : List (List Char) := pySplitAux s []

/-- Python `" ".join(ws)`. -/
def pyJoinSpace (ws : List (List Char)) : List Char := List.intercalate [' '] ws

/-- The three check statuses assigned by `check_compliance`. -/
inductive Status
  | COMPLIANT
  | NON_COMPLIANT
  | MISSING
deriving DecidableEq

/-- The status string stored in the result dict. -/
def Status.text : Status → String
  | .COMPLIANT => "COMPLIANT"
  | .NON_COMPLIANT => "NON-COMPLIANT"
  | .MISSING => "MISSING"

/-- The symbol stored alongside the status. -/
def Status.symbol : Status → String
  | .COMPLIANT => "✅"
  | .NON_COMPLIANT => "❌"
  | .MISSING => "⚠️"

/-- One check record of the rules JSON.  `mandatory` and `weight` are the
optional keys read with `check.get('mandatory', True)` /
`check.get('weight', 5)`. -/
structure Check where
  id : String
  requirement : String
  keywords : List (List Char)
  mandatory : Option Bool
  weight : Option ℚ
deriving DecidableEq

/-- One standard record of the rules JSON; `category` and `priority` are the
optional keys read with `.get('category', 'general')` /
`.get('priority', 'MEDIUM')`. -/
structure Standard where
  name : String
  category : Option String
  priority : Option String
  checks : List Check
deriving DecidableEq

/-- The rules mapping (`self.rules`), an insertion-ordered dict. -/
abbrev RuleSet := List (String × Standard)

/-- A `check_result` dict built in `check_compliance`. -/
structure CheckResult where
  check_id : String
  requirement : String
  status : Status
  symbol : String
  mandatory : Bool
  weight : ℚ
  evidence : Option (List Char)
  keywords_searched : List (List Char)
deriving DecidableEq

/-- A `standard_results` dict built in `check_compliance`. -/
structure StandardResult where
  standard_id : String
  standard_name : String
  category : String
  priority : String
  checks : List CheckResult
  compliant_count : Nat
  total_count : Nat
deriving DecidableEq

/-- The `summary` dict built in `check_compliance`. -/
structure Summary where
  total_checks : Nat
  compliant : Nat
  non_compliant : Nat
  missing : Nat
  total_weight : ℚ
  achieved_weight : ℚ
  compliance_score : ℚ
deriving DecidableEq

/-- The dict returned by `check_compliance`. -/
structure ComplianceReport where
  summary : Summary
  detailed_results : List StandardResult
  document_length : Nat
  timestamp : String
deriving DecidableEq

/-- Model of `ComplianceChecker._extract_context` with the default
`context_length = 100` (the only call site uses the default): find the
keyword, take the surrounding window clamped to the text bounds, `strip` it
and collapse whitespace runs with `" ".join(context.split())`. -/
def extract_context (text keyword : List Char) : List Char :=
  match strFind text keyword with
  | none => keyword
  | some index =>
      let start := index - 100
      let stop := min (index + keyword.length + 100) text.length
      let context := pyStrip ((text.drop start).take (stop - start))
      pyJoinSpace (pySplit context)

/-- Model of `ComplianceChecker._search_keywords`: first keyword (in list order) whose
lowercase form occurs in `text` wins; `none` models `(False, None)`. -/
def search_keywords (text : List Char) : List (List Char) → Option (List Char)
  | [] => none
  | keyword :: rest =>
      let keyword_lower := pyLower keyword
      if strContains text keyword_lower then
        some (extract_context text keyword_lower)
      else search_keywords text rest

/-- The per-check body of the loop in `check_compliance` (lines 144-194):
status determination and the stored `check_result` record. -/
def run_check (text_lower : List Char) (check : Check) : CheckResult :=
  let weight := check.weight.getD 5
  let ev := search_keywords text_lower check.keywords
  let status : Status :=
    match ev with
    | some _ => .COMPLIANT
    | none => if check.mandatory.getD true then .NON_COMPLIANT else .MISSING
  { check_id := check.id
    requirement := check.requirement
    status := status
    symbol := status.symbol
    mandatory := check.mandatory.getD true
    weight := weight
    evidence := ev
    keywords_searched := check.keywords }

/-- The per-standard body of the outer loop in `check_compliance`
(lines 128-196): run every check and count the compliant ones. -/
def run_standard (text_lower : List Char) (standard_id : String)
    (std : Standard) : StandardResult :=
  let crs := std.checks.map (run_check text_lower)
  { standard_id := standard_id
    standard_name := std.name
    category := std.category.getD "general"
    priority := std.priority.getD "MEDIUM"
    checks := crs
    compliant_count := crs.countP (fun c => decide (c.status = Status.COMPLIANT))
    total_count := std.checks.length }

/-- Python `round(x, 2)` modelled over `ℚ` (round to nearest hundredth). -/
def round2 (q : ℚ) : ℚ := (round (q * 100) : ℚ) / 100

/-- The `summary` accumulation of `check_compliance` (lines 118-204),
expressed over the flat list of produced check results: the loop counters
equal these counts and sums, and the final score is the guarded ratio
rounded to two decimals. -/
def summary_of (crs : List CheckResult) : Summary :=
  let total_weight := (crs.map (·.weight)).sum
  let achieved_weight :=
    ((crs.filter (fun c => decide (c.status = Status.COMPLIANT))).map (·.weight)).sum
  let raw_score : ℚ := if total_weight > 0 then achieved_weight / total_weight * 100 else 0
  { total_checks := crs.length
    compliant := crs.countP (fun c => decide (c.status = Status.COMPLIANT))
    non_compliant := crs.countP (fun c => decide (c.status = Status.NON_COMPLIANT))
    missing := crs.countP (fun c => decide (c.status = Status.MISSING))
    total_weight := total_weight
    achieved_weight := achieved_weight
    compliance_score := round2 raw_score }

/-- Model of `ComplianceChecker.check_compliance`.  `now` is the formatted wall-clock
string that `_get_timestamp` reads from `datetime.now()` at return time. -/
def check_compliance (rules : RuleSet) (document_text : List Char)
    (now : String) : ComplianceReport :=
  let text_lower := pyLower document_text
  let results := rules.map (fun p => run_standard text_lower p.1 p.2)
  { summary := summary_of ((results.map (·.checks)).flatten)
    detailed_results := results
    document_length := document_text.length
    timestamp := now }

/-- An item collected by `get_non_compliant_items`. -/
structure NCItem where
  standard : String
  requirement : String
  status : Status
  priority : String
deriving DecidableEq

/-- Model of `ComplianceChecker.get_non_compliant_items`: every check whose status is
NON-COMPLIANT or MISSING, annotated with its standard's name and priority,
in standard-then-check order. -/
def get_non_compliant_items (results : ComplianceReport) : List NCItem :=
  ((results.detailed_results).map (fun std =>
    ((std.checks).filter (fun c =>
        decide (c.status = Status.NON_COMPLIANT) || decide (c.status = Status.MISSING))).map
      (fun c =>
        { standard := std.standard_name
          requirement := c.requirement
          status := c.status
          priority := std.priority : NCItem }))).flatten

/-- The urgent-summary line of `generate_recommendations`. -/
def urgent_line (n : Nat) : String :=
  "🔴 URGENT: Address " ++ toString n ++ " high-priority compliance gaps"

/-- The per-gap line of `generate_recommendations`. -/
def item_line (it : NCItem) : String :=
  "   - Add " ++ it.requirement ++ " (" ++ it.standard ++ ")"

/-- Closing line for score < 60. -/
def comprehensive_line : String := "💡 Consider comprehensive compliance review"

/-- Closing line for 60 ≤ score < 80. -/
def focus_line : String := "💡 Focus on missing high-priority disclosures"

/-- Model of `ComplianceChecker.generate_recommendations` (lines 338-377). -/
def generate_recommendations (results : ComplianceReport) : List String :=
  let non_compliant := get_non_compliant_items results
  let high_priority := non_compliant.filter (fun nc => nc.priority == "HIGH")
  let recs₁ : List String :=
    if high_priority.length > 0 then [urgent_line high_priority.length] else []
  let recs₂ := recs₁ ++ (non_compliant.take 5).map item_line
  let score := results.summary.compliance_score
  if score < 60 then recs₂ ++ [comprehensive_line]
  else if score < 80 then recs₂ ++ [focus_line]
  else recs₂

/-! ### Dynamic (JSON-level) layer

`_load_rules` reads arbitrary JSON, and `generate_recommendations` /
`get_non_compliant_items` perform untyped dict accesses that can raise
`KeyError` / `TypeError`.  To reason about those error paths we model JSON
values and Python's fallible accesses with `Except String`. -/

/-- A decoded JSON value (Python object after `json.load`). -/
inductive JVal
  | str (s : String)
  | num (q : ℚ)
  | bool (b : Bool)
  | null
  | arr (xs : List JVal)
  | obj (fields : List (String × JVal))

/-- Python `d[k]` on a decoded JSON value: `KeyError` when the key is absent,
`TypeError` when the value is not a dict. -/
def jGet (v : JVal) (k : String) : Except String JVal :=
  match v with
  | .obj fields =>
      match fields.lookup k with
      | some x => .ok x
      | none => .error ("KeyError: " ++ k)
  | _ => .error "TypeError: value is not a dict"

/-- Python iteration over a decoded JSON list: `TypeError` otherwise. -/
def jAsArr (v : JVal) : Except String (List JVal) :=
  match v with
  | .arr xs => .ok xs
  | _ => .error "TypeError: value is not a list"

/-- Is `v` the JSON string `s`?  (Python `v == s` against a `str`.) -/
def jIsStr (v : JVal) (s : String) : Bool :=
  match v with
  | .str t => t == s
  | _ => false

/-- Python `v < x` for a number `x`: numbers and booleans compare
(`True`/`False` are `1`/`0`), anything else raises `TypeError`. -/
def jLt (v : JVal) (x : ℚ) : Except String Bool :=
  match v with
  | .num q => .ok (q < x)
  | .bool b => .ok ((if b then (1 : ℚ) else 0) < x)
  | _ => .error "TypeError: unorderable types"

/-- Python `str(v)` as used by the f-strings in `generate_recommendations`.
Strings, booleans, `None` and the error paths are exact; the rendering of
numbers and nested containers is abbreviated (no theorem evaluates it). -/
def jToString : JVal → String
  | .str s => s
  | .bool b => if b then "True" else "False"
  | .null => "None"
  | .num q => toString q
  | .arr _ => "[...]"
  | .obj _ => "\x7b...\x7d"

/-- The outcome of `open(self.rules_path)` + `json.load` in `_load_rules`:
the file may be absent (`FileNotFoundError`), unreadable for another reason
(e.g. `PermissionError`), undecodable (`json.JSONDecodeError`), or decode to
a JSON value. -/
inductive RuleSource
  | missing
  | unreadable
  | badJson
  | parsed (v : JVal)

/-- Model of `_get_default_rules` as a JSON value: the minimal built-in single-rule
set. -/
def default_rules_json : JVal :=
  .obj [("IndAS-1", .obj
    [("name", .str "Financial Statements"),
     ("checks", .arr [.obj
       [("id", .str "IndAS1-1"),
        ("requirement", .str "Balance Sheet"),
        ("keywords", .arr [.str "balance sheet"]),
        ("mandatory", .bool true),
        ("weight", .num 10)]])])]

/-- Model of `_get_default_rules` as a typed rule set. -/
def default_rules : RuleSet :=
  [("IndAS-1",
    { name := "Financial Statements"
      category := none
      priority := none
      checks := [{ id := "IndAS1-1"
                   requirement := "Balance Sheet"
                   keywords := [String.toList "balance sheet"]
                   mandatory := some true
                   weight := some 10 }] })]

/-- Model of `ComplianceChecker._load_rules` (lines 49-72): only `FileNotFoundError`
and `json.JSONDecodeError` are caught (both fall back to the default rules);
any other read error propagates, and a successfully decoded JSON value is
returned unvalidated. -/
def load_rules : RuleSource → Except String JVal
  | .missing => .ok default_rules_json
  | .unreadable => .error "PermissionError"
  | .badJson => .ok default_rules_json
  | .parsed v => .ok v

/-- Spec-side helper: a JSON list of strings. -/
def parseStrs : List JVal → Option (List (List Char))
  | [] => some []
  | .str s :: rest => (parseStrs rest).map (String.toList s :: ·)
  | _ => none

/-- Spec-side definition (not from the source): decode a JSON value that
conforms to the spec §3 Check shape, ignoring unknown fields. -/
def parseCheck (v : JVal) : Option Check :=
  match v with
  | .obj fields =>
      match fields.lookup "id", fields.lookup "requirement",
            fields.lookup "keywords" with
      | some (.str i), some (.str req), some (.arr kws) =>
          match parseStrs kws with
          | some keywords =>
              if keywords.isEmpty then none
              else
                let mand : Option (Option Bool) :=
                  match fields.lookup "mandatory" with
                  | none => some none
                  | some (.bool b) => some (some b)
                  | some _ => none
                let wt : Option (Option ℚ) :=
                  match fields.lookup "weight" with
                  | none => some none
                  | some (.num q) => if 0 ≤ q then some (some q) else none
                  | some _ => none
                match mand, wt with
                | some m, some w =>
                    some { id := i, requirement := req, keywords := keywords
                           mandatory := m, weight := w }
                | _, _ => none
          | none => none
      | _, _, _ => none
  | _ => none

/-- Spec-side helper: a JSON list of Check-shaped values. -/
def parseChecks : List JVal → Option (List Check)
  | [] => some []
  | c :: rest =>
      match parseCheck c, parseChecks rest with
      | some c', some rest' => some (c' :: rest')
      | _, _ => none

/-- Spec-side definition (not from the source): decode a JSON value that
conforms to the spec §3 Standard shape. -/
def parseStandard (v : JVal) : Option Standard :=
  match v with
  | .obj fields =>
      match fields.lookup "name", fields.lookup "checks" with
      | some (.str n), some (.arr cs) =>
          match parseChecks cs with
          | some checks =>
              let cat : Option (Option String) :=
                match fields.lookup "category" with
                | none => some none
                | some (.str s) => some (some s)
                | some _ => none
              let pr : Option (Option String) :=
                match fields.lookup "priority" with
                | none => some none
                | some (.str s) => some (some s)
                | some _ => none
              match cat, pr with
              | some c, some p =>
                  some { name := n, category := c, priority := p, checks := checks }
              | _, _ => none
          | none => none
      | _, _ => none
  | _ => none

/-- Spec-side helper: the field list of a Rule Set object. -/
def parseStandards : List (String × JVal) → Option RuleSet
  | [] => some []
  | (k, sv) :: rest =>
      match parseStandard sv, parseStandards rest with
      | some s, some rest' => some ((k, s) :: rest')
      | _, _ => none

/-- Spec-side definition (not from the source): decode a JSON value that
conforms to the spec §3 Rule Set shape (`none` = structurally malformed). -/
def parseRuleSet (v : JVal) : Option RuleSet :=
  match v with
  | .obj fields => parseStandards fields
  | _ => none

/-- An item dict built by `get_non_compliant_items` (always carries exactly
these four keys). -/
structure NCItemD where
  standard : JVal
  requirement : JVal
  status : JVal
  priority : JVal

/-- The inner loop of `get_non_compliant_items` over one standard's
`checks` list, with Python's dict accesses made fallible. -/
def collect_checks (std : JVal) : List JVal → Except String (List NCItemD)
  | [] => .ok []
  | ch :: rest => do
      let status ← jGet ch "status"
      if jIsStr status "NON-COMPLIANT" || jIsStr status "MISSING" then
        let sname ← jGet std "standard_name"
        let req ← jGet ch "requirement"
        let pr ← jGet std "priority"
        let tail ← collect_checks std rest
        .ok ({ standard := sname, requirement := req,
               status := status, priority := pr } :: tail)
      else
        collect_checks std rest

/-- The outer loop of `get_non_compliant_items` over `detailed_results`. -/
def collect_standards : List JVal → Except String (List NCItemD)
  | [] => .ok []
  | std :: rest => do
      let checksV ← jGet std "checks"
      let checks ← jAsArr checksV
      let here ← collect_checks std checks
      let there ← collect_standards rest
      .ok (here ++ there)

/-- Model of `ComplianceChecker.get_non_compliant_items` over a raw results value:
dict/list accesses may raise, and the exception propagates. -/
def get_non_compliant_items_dyn (results : JVal) : Except String (List NCItemD) := do
  let dr ← jGet results "detailed_results"
  let standards ← jAsArr dr
  collect_standards standards

/-- The per-gap f-string over dynamic values. -/
def item_line_dyn (it : NCItemD) : String :=
  "   - Add " ++ jToString it.requirement ++ " (" ++ jToString it.standard ++ ")"

/-- Model of `ComplianceChecker.generate_recommendations` over a raw results value:
the function body contains no `try`/`except`, so any `KeyError`/`TypeError`
raised by the accesses propagates to the caller. -/
def generate_recommendations_dyn (results : JVal) : Except String (List String) := do
  let non_compliant ← get_non_compliant_items_dyn results
  let high_priority := non_compliant.filter (fun nc => jIsStr nc.priority "HIGH")
  let recs₁ : List String :=
    if high_priority.length > 0 then [urgent_line high_priority.length] else []
  let recs₂ := recs₁ ++ (non_compliant.take 5).map item_line_dyn
  let summaryV ← jGet results "summary"
  let scoreV ← jGet summaryV "compliance_score"
  let lt60 ← jLt scoreV 60
  if lt60 then
    .ok (recs₂ ++ [comprehensive_line])
  else do
    let lt80 ← jLt scoreV 80
    if lt80 then .ok (recs₂ ++ [focus_line]) else .ok recs₂

/-- The recommendation step of the pipeline driver (`main.py` lines 264-269):
the call is wrapped in `try`/`except Exception`, printing a warning line
instead of failing; no empty list is substituted. -/
def recommendation_step (results : JVal) : List String :=
  match generate_recommendations_dyn results with
  | .ok recs => recs
  | .error e => ["   ⚠️  Could not generate recommendations: " ++ e]

/-! ### Helper lemmas -/

/-- Field lemma for `summary_of`. -/
lemma summary_of_total_weight (crs : List CheckResult) :
    (summary_of crs).total_weight = (crs.map (·.weight)).sum := rfl

/-- Field lemma for `summary_of`. -/
lemma summary_of_achieved_weight (crs : List CheckResult) :
    (summary_of crs).achieved_weight
      = ((crs.filter (fun c => decide (c.status = Status.COMPLIANT))).map (·.weight)).sum := rfl

/-- Field lemma for `summary_of`. -/
lemma summary_of_compliance_score (crs : List CheckResult) :
    (summary_of crs).compliance_score
      = round2 (if (crs.map (·.weight)).sum > 0 then
          ((crs.filter (fun c => decide (c.status = Status.COMPLIANT))).map (·.weight)).sum
            / (crs.map (·.weight)).sum * 100
        else 0) := rfl

/-- Field lemma for `summary_of`. -/
lemma summary_of_total_checks (crs : List CheckResult) :
    (summary_of crs).total_checks = crs.length := rfl

/-- Field lemma for `summary_of`. -/
lemma summary_of_compliant (crs : List CheckResult) :
    (summary_of crs).compliant
      = crs.countP (fun c => decide (c.status = Status.COMPLIANT)) := rfl

/-- Field lemma for `summary_of`. -/
lemma summary_of_non_compliant (crs : List CheckResult) :
    (summary_of crs).non_compliant
      = crs.countP (fun c => decide (c.status = Status.NON_COMPLIANT)) := rfl

/-- Field lemma for `summary_of`. -/
lemma summary_of_missing (crs : List CheckResult) :
    (summary_of crs).missing
      = crs.countP (fun c => decide (c.status = Status.MISSING)) := rfl

/-- Field lemma for `check_compliance`. -/
lemma check_compliance_summary (rules : RuleSet) (text : List Char) (now : String) :
    (check_compliance rules text now).summary
      = summary_of (((rules.map (fun p => run_standard (pyLower text) p.1 p.2)).map
          (·.checks)).flatten) := rfl

/-- Field lemma for `check_compliance`. -/
lemma check_compliance_detailed (rules : RuleSet) (text : List Char) (now : String) :
    (check_compliance rules text now).detailed_results
      = rules.map (fun p => run_standard (pyLower text) p.1 p.2) := rfl

/-- The flat list of check results produced by `check_compliance` is
`run_check` mapped over the flat list of source checks. -/
lemma flatten_checks (rules : RuleSet) (tl : List Char) :
    (((rules.map (fun p => run_standard tl p.1 p.2)).map (·.checks)).flatten)
      = ((rules.map (fun p => p.2.checks)).flatten).map (run_check tl) := by
  induction rules with
  | nil => rfl
  | cons p rest ih =>
      simp only [List.map_cons, List.flatten_cons, List.map_append, ih]
      rfl

/-- Every weight stored in the produced check results is a source check's
weight with the default applied. -/
lemma mem_weights (rules : RuleSet) (tl : List Char) {q : ℚ}
    (hq : q ∈ ((((rules.map (fun p => run_standard tl p.1 p.2)).map (·.checks)).flatten).map (·.weight))) :
    ∃ p ∈ rules, ∃ c ∈ p.2.checks, q = c.weight.getD 5 := by
  rw [flatten_checks, List.map_map] at hq
  simp only [List.mem_map, List.mem_flatten, Function.comp_apply] at hq
  obtain ⟨c, ⟨cs, ⟨p, hp, rfl⟩, hc⟩, rfl⟩ := hq
  exact ⟨p, hp, c, hc, rfl⟩

end DocAI

namespace DocAI

/-- Rounding to two decimals keeps a nonnegative value nonnegative. -/
lemma round2_nonneg {q : ℚ} (h : 0 ≤ q) : 0 ≤ round2 q := by
  unfold round2
  apply div_nonneg _ (by norm_num)
  have hz : (0 : ℤ) ≤ round (q * 100) := by
    rw [round_eq]
    calc (0 : ℤ) = ⌊(0 : ℚ) + 1 / 2⌋ := by norm_num
    _ ≤ ⌊q * 100 + 1 / 2⌋ := Int.floor_le_floor (by nlinarith)
  exact_mod_cast hz

/-- Rounding to two decimals keeps a value that is at most 100 at most 100. -/
lemma round2_le_100 {q : ℚ} (h : q ≤ 100) : round2 q ≤ 100 := by
  unfold round2
  rw [div_le_iff₀ (by norm_num : (0 : ℚ) < 100)]
  have hb : round (q * 100) ≤ (10000 : ℤ) := by
    rw [round_eq]
    calc ⌊q * 100 + 1 / 2⌋ ≤ ⌊(10000 : ℚ) + 1 / 2⌋ := Int.floor_le_floor (by nlinarith)
    _ = 10000 := by norm_num
  calc ((round (q * 100) : ℤ) : ℚ) ≤ (10000 : ℚ) := by exact_mod_cast hb
  _ = 100 * 100 := by norm_num

/-- The three statuses are mutually exclusive and exhaustive, so the three
counts sum to the length. -/
lemma countP_status_partition (l : List CheckResult) :
    l.countP (fun c => decide (c.status = Status.COMPLIANT))
      + l.countP (fun c => decide (c.status = Status.NON_COMPLIANT))
      + l.countP (fun c => decide (c.status = Status.MISSING)) = l.length := by
  induction l with
  | nil => rfl
  | cons c rest ih =>
      cases hst : c.status <;>
        simp only [List.countP_cons, hst, List.length_cons, decide_eq_true_eq] <;>
        simp <;> omega

/-! ### C2: determinism -/

/-- Counterexample to C2 as stated: with identical `(document_text, RuleSet)`
but different wall-clock readings (the situation of two successive calls,
since `_get_timestamp` formats `datetime.now()`), the two reports differ. -/
theorem check_compliance_timestamp_counterexample :
    check_compliance [] [] "2026-02-01 10:00:00"
      ≠ check_compliance [] [] "2026-02-01 10:00:01" := by
  intro h
  have ht := congrArg ComplianceReport.timestamp h
  simp [check_compliance] at ht

/-- C2 (amended): for identical `(document_text, RuleSet)` every field of the
report except `timestamp` is identical across calls; the `timestamp` field
is exactly the wall-clock reading, so byte-identity holds only when the
clock reads the same. -/
theorem check_compliance_deterministic_except_timestamp (rules : RuleSet)
    (text : List Char) (now₁ now₂ : String) :
    (check_compliance rules text now₁).summary = (check_compliance rules text now₂).summary
    ∧ (check_compliance rules text now₁).detailed_results
        = (check_compliance rules text now₂).detailed_results
    ∧ (check_compliance rules text now₁).document_length
        = (check_compliance rules text now₂).document_length
    ∧ (check_compliance rules text now₁).timestamp = now₁ :=
  ⟨rfl, rfl, rfl, rfl⟩

/-! ### C3: status determination -/

/-- C3: a match makes the check COMPLIANT; no match makes it NON-COMPLIANT
when mandatory (defaulting to true) and MISSING otherwise; and the status is
always exactly one of the three. -/
theorem run_check_status (tl : List Char) (c : Check) :
    ((search_keywords tl c.keywords).isSome →
        (run_check tl c).status = Status.COMPLIANT)
    ∧ (search_keywords tl c.keywords = none →
        c.mandatory.getD true = true →
        (run_check tl c).status = Status.NON_COMPLIANT)
    ∧ (search_keywords tl c.keywords = none →
        c.mandatory.getD true = false →
        (run_check tl c).status = Status.MISSING)
    ∧ ((run_check tl c).status = Status.COMPLIANT
        ∨ (run_check tl c).status = Status.NON_COMPLIANT
        ∨ (run_check tl c).status = Status.MISSING) := by
  refine ⟨?_, ?_, ?_, ?_⟩
  · intro h
    cases hs : search_keywords tl c.keywords with
    | none => rw [hs] at h; cases h
    | some e => simp [run_check, hs]
  · intro hs hm; simp [run_check, hs, hm]
  · intro hs hm; simp [run_check, hs, hm]
  · cases hs : search_keywords tl c.keywords with
    | some e => simp [run_check, hs]
    | none => cases hm : c.mandatory.getD true <;> simp [run_check, hs, hm]

/-- A mandatory check used by several witnesses. -/
def wCheckMandatory : Check :=
  { id := "c1", requirement := "R1", keywords := [String.toList "balance sheet"],
    mandatory := some true, weight := some 10 }

/-- An optional check used by several witnesses. -/
def wCheckOptional : Check :=
  { id := "c2", requirement := "R2", keywords := [String.toList "xyz-never-present"],
    mandatory := some false, weight := some 5 }

/-- Witness for C3: a concrete matching text yields COMPLIANT, a concrete
non-matching text yields NON-COMPLIANT for a mandatory check and MISSING for
an optional one. -/
theorem run_check_status_witness :
    (run_check (String.toList "this is the balance sheet section.") wCheckMandatory).status
        = Status.COMPLIANT
    ∧ (run_check [] wCheckMandatory).status = Status.NON_COMPLIANT
    ∧ (run_check [] wCheckOptional).status = Status.MISSING :=
  ⟨(run_check_status (String.toList "this is the balance sheet section.") wCheckMandatory).1
      (by decide),
   (run_check_status [] wCheckMandatory).2.1 (by decide) (by decide),
   (run_check_status [] wCheckOptional).2.2.1 (by decide) (by decide)⟩

/-! ### C4: first-match priority -/

/-- C4: the evidence search returns the context of the FIRST keyword (in
list order) whose lowercase form occurs in the text, and nothing when no
keyword occurs. -/
theorem search_keywords_first_match (text : List Char) (kws : List (List Char)) :
    search_keywords text kws =
      (kws.find? (fun k => strContains text (pyLower k))).map
        (fun k => extract_context text (pyLower k)) := by
  induction kws with
  | nil => rfl
  | cons k rest ih =>
      simp only [search_keywords, List.find?]
      cases h : strContains text (pyLower k) with
      | true => simp [h]
      | false => simp [h, ih]

/-! ### C5: rule loading -/

/-- A JSON value that is valid JSON but does not conform to the Rule Set
shape: the standard record has no `checks` key. -/
def malformed_rules_json : JVal := .obj [("S1", .obj [("name", .str "X")])]

/-- Counterexample to C5 as stated: a structurally malformed (but valid
JSON) rule source is NOT rejected at load time — `_load_rules` returns it
unchanged (no error, no fallback to the default rules, whose conforming
decode is shown alongside). -/
theorem load_rules_shape_counterexample :
    parseRuleSet malformed_rules_json = none
    ∧ load_rules (.parsed malformed_rules_json) = .ok malformed_rules_json
    ∧ parseRuleSet default_rules_json = some default_rules := by
  refine ⟨rfl, rfl, by decide⟩

/-- C5 (amended): `_load_rules` substitutes the minimal built-in rule set
exactly when the file is absent (`FileNotFoundError`) or not valid JSON
(`JSONDecodeError`); any other read error propagates uncaught, and a decoded
JSON value is returned without any shape validation. -/
theorem load_rules_behavior :
    load_rules .missing = .ok default_rules_json
    ∧ load_rules .badJson = .ok default_rules_json
    ∧ (∀ v, load_rules (.parsed v) = .ok v)
    ∧ load_rules .unreadable = .error "PermissionError" :=
  ⟨rfl, rfl, fun _ => rfl, rfl⟩

/-! ### C9: recommendation error handling -/

/-- Counterexample to C9 as stated: on a malformed report value the first
dict access inside `get_non_compliant_items` raises, and
`generate_recommendations` propagates the exception instead of returning an
empty list. -/
theorem generate_recommendations_dyn_counterexample :
    generate_recommendations_dyn (JVal.obj []) = .error "KeyError: detailed_results"
    ∧ generate_recommendations_dyn (JVal.obj [])
        ≠ (.ok [] : Except String (List String)) := by
  refine ⟨rfl, ?_⟩
  intro h
  rw [show generate_recommendations_dyn (JVal.obj [])
        = .error "KeyError: detailed_results" from rfl] at h
  exact Except.noConfusion h

/-- C9 (amended): errors inside `generate_recommendations` propagate to the
caller; the pipeline driver (`main.py` lines 264-269) wraps the call in
`try`/`except`, so the pipeline continues with a warning line rather than an
empty recommendation list. -/
theorem recommendation_errors_caught_by_driver (v : JVal) (e : String)
    (h : generate_recommendations_dyn v = .error e) :
    recommendation_step v = ["   ⚠️  Could not generate recommendations: " ++ e] := by
  simp [recommendation_step, h]

/-- Witness for the amended C9 at the malformed report value. -/
theorem recommendation_errors_caught_by_driver_witness :
    generate_recommendations_dyn (JVal.obj []) = .error "KeyError: detailed_results"
    ∧ recommendation_step (JVal.obj [])
        = ["   ⚠️  Could not generate recommendations: KeyError: detailed_results"] :=
  ⟨rfl, recommendation_errors_caught_by_driver (JVal.obj []) "KeyError: detailed_results" rfl⟩

/-! ### C1: compliance score -/

/-- C1: the score is the rounded weighted ratio when `total_weight > 0` and
exactly 0 when `total_weight = 0`, and under nonnegative weights it always
lies in `[0, 100]`. -/
theorem compliance_score_correct (rules : RuleSet) (text : List Char) (now : String)
    (hw : ∀ p ∈ rules, ∀ c ∈ p.2.checks, 0 ≤ c.weight.getD 5) :
    ((check_compliance rules text now).summary.total_weight > 0 →
        (check_compliance rules text now).summary.compliance_score
          = round2 ((check_compliance rules text now).summary.achieved_weight
              / (check_compliance rules text now).summary.total_weight * 100))
    ∧ ((check_compliance rules text now).summary.total_weight = 0 →
        (check_compliance rules text now).summary.compliance_score = 0)
    ∧ 0 ≤ (check_compliance rules text now).summary.compliance_score
    ∧ (check_compliance rules text now).summary.compliance_score ≤ 100 := by
  have hnn : ∀ q ∈ ((((rules.map (fun p => run_standard (pyLower text) p.1 p.2)).map
      (·.checks)).flatten).map (·.weight)), 0 ≤ q := by
    intro q hq
    obtain ⟨p, hp, c, hc, rfl⟩ := mem_weights rules (pyLower text) hq
    exact hw p hp c hc
  have hsub : List.Sublist
      ((((rules.map (fun p => run_standard (pyLower text) p.1 p.2)).map
        (·.checks)).flatten.filter (fun c => decide (c.status = Status.COMPLIANT))).map (·.weight))
      ((((rules.map (fun p => run_standard (pyLower text) p.1 p.2)).map
        (·.checks)).flatten).map (·.weight)) :=
    (List.filter_sublist _).map _
  have haw_le := hsub.sum_le_sum hnn
  have haw_nn : 0 ≤ ((((rules.map (fun p => run_standard (pyLower text) p.1 p.2)).map
      (·.checks)).flatten.filter (fun c => decide (c.status = Status.COMPLIANT))).map
        (·.weight)).sum := by
    have h0 := (List.nil_sublist _).sum_le_sum
      (fun a ha => hnn a (hsub.subset ha))
    simpa using h0
  refine ⟨?_, ?_, ?_, ?_⟩
  · intro htw
    simp only [check_compliance_summary, summary_of_total_weight] at htw
    simp only [check_compliance_summary, summary_of_total_weight,
      summary_of_achieved_weight, summary_of_compliance_score]
    rw [if_pos htw]
  · intro h0
    simp only [check_compliance_summary, summary_of_total_weight] at h0
    simp only [check_compliance_summary, summary_of_compliance_score, h0]
    rw [if_neg (lt_irrefl 0)]
    simp [round2]
  · simp only [check_compliance_summary, summary_of_compliance_score]
    by_cases htw : ((((rules.map (fun p => run_standard (pyLower text) p.1 p.2)).map
        (·.checks)).flatten).map (·.weight)).sum > 0
    · rw [if_pos htw]
      exact round2_nonneg (mul_nonneg (div_nonneg haw_nn (le_of_lt htw)) (by norm_num))
    · rw [if_neg htw]
      exact round2_nonneg (le_refl 0)
  · simp only [check_compliance_summary, summary_of_compliance_score]
    by_cases htw : ((((rules.map (fun p => run_standard (pyLower text) p.1 p.2)).map
        (·.checks)).flatten).map (·.weight)).sum > 0
    · rw [if_pos htw]
      have h1 : ((((rules.map (fun p => run_standard (pyLower text) p.1 p.2)).map
            (·.checks)).flatten.filter (fun c => decide (c.status = Status.COMPLIANT))).map
              (·.weight)).sum
          / ((((rules.map (fun p => run_standard (pyLower text) p.1 p.2)).map
            (·.checks)).flatten).map (·.weight)).sum ≤ 1 :=
        (div_le_one htw).mpr haw_le
      exact round2_le_100 (by nlinarith [h1])
    · rw [if_neg htw]
      exact round2_le_100 (by norm_num)

/-- Concrete rule set used by witnesses: one HIGH-priority standard holding a
mandatory matched check and an optional unmatched one. -/
def wRules : RuleSet :=
  [("S1", { name := "X", category := none, priority := some "HIGH",
            checks := [wCheckMandatory, wCheckOptional] })]

/-- Concrete document text used by witnesses. -/
def wText : List Char := String.toList "this is the balance sheet section."

/-- Witness for C1 at a concrete rule set and document. -/
theorem compliance_score_correct_witness :
    (∀ p ∈ wRules, ∀ c ∈ p.2.checks, 0 ≤ c.weight.getD 5)
    ∧ (((check_compliance wRules wText "t").summary.total_weight > 0 →
          (check_compliance wRules wText "t").summary.compliance_score
            = round2 ((check_compliance wRules wText "t").summary.achieved_weight
                / (check_compliance wRules wText "t").summary.total_weight * 100))
      ∧ ((check_compliance wRules wText "t").summary.total_weight = 0 →
          (check_compliance wRules wText "t").summary.compliance_score = 0)
      ∧ 0 ≤ (check_compliance wRules wText "t").summary.compliance_score
      ∧ (check_compliance wRules wText "t").summary.compliance_score ≤ 100) :=
  ⟨by decide, compliance_score_correct wRules wText "t" (by decide)⟩

/-! ### C6: weight conservation and status counts -/

/-- C6: `achieved_weight` is the sum of the weights of exactly the COMPLIANT
results, `total_weight` is the sum of all checks' weights (default 5),
`achieved_weight ≤ total_weight` under nonnegative weights, and the three
summary counts are the status counts and sum to `total_checks`. -/
theorem summary_invariants (rules : RuleSet) (text : List Char) (now : String)
    (hw : ∀ p ∈ rules, ∀ c ∈ p.2.checks, 0 ≤ c.weight.getD 5) :
    (check_compliance rules text now).summary.achieved_weight
      = (((((check_compliance rules text now).detailed_results).map (·.checks)).flatten.filter
            (fun c => decide (c.status = Status.COMPLIANT))).map (·.weight)).sum
    ∧ (check_compliance rules text now).summary.total_weight
      = (((rules.map (fun p => p.2.checks)).flatten).map (fun c => c.weight.getD 5)).sum
    ∧ (check_compliance rules text now).summary.achieved_weight
        ≤ (check_compliance rules text now).summary.total_weight
    ∧ (check_compliance rules text now).summary.compliant
      = ((((check_compliance rules text now).detailed_results).map (·.checks)).flatten).countP
          (fun c => decide (c.status = Status.COMPLIANT))
    ∧ (check_compliance rules text now).summary.non_compliant
      = ((((check_compliance rules text now).detailed_results).map (·.checks)).flatten).countP
          (fun c => decide (c.status = Status.NON_COMPLIANT))
    ∧ (check_compliance rules text now).summary.missing
      = ((((check_compliance rules text now).detailed_results).map (·.checks)).flatten).countP
          (fun c => decide (c.status = Status.MISSING))
    ∧ (check_compliance rules text now).summary.compliant
        + (check_compliance rules text now).summary.non_compliant
        + (check_compliance rules text now).summary.missing
      = (check_compliance rules text now).summary.total_checks := by
  have hnn : ∀ q ∈ ((((rules.map (fun p => run_standard (pyLower text) p.1 p.2)).map
      (·.checks)).flatten).map (·.weight)), 0 ≤ q := by
    intro q hq
    obtain ⟨p, hp, c, hc, rfl⟩ := mem_weights rules (pyLower text) hq
    exact hw p hp c hc
  have hsub : List.Sublist
      ((((rules.map (fun p => run_standard (pyLower text) p.1 p.2)).map
        (·.checks)).flatten.filter (fun c => decide (c.status = Status.COMPLIANT))).map (·.weight))
      ((((rules.map (fun p => run_standard (pyLower text) p.1 p.2)).map
        (·.checks)).flatten).map (·.weight)) :=
    (List.filter_sublist _).map _
  refine ⟨rfl, ?_, ?_, rfl, rfl, rfl, ?_⟩
  · simp only [check_compliance_summary, summary_of_total_weight]
    rw [flatten_checks, List.map_map]
    rfl
  · simp only [check_compliance_summary, summary_of_total_weight, summary_of_achieved_weight]
    exact hsub.sum_le_sum hnn
  · simp only [check_compliance_summary, summary_of_compliant, summary_of_non_compliant,
      summary_of_missing, summary_of_total_checks]
    exact countP_status_partition _

/-- Witness for C6 at the concrete rule set and document. -/
theorem summary_invariants_witness :
    (∀ p ∈ wRules, ∀ c ∈ p.2.checks, 0 ≤ c.weight.getD 5)
    ∧ ((check_compliance wRules wText "t").summary.achieved_weight
        = (((((check_compliance wRules wText "t").detailed_results).map (·.checks)).flatten.filter
              (fun c => decide (c.status = Status.COMPLIANT))).map (·.weight)).sum
      ∧ (check_compliance wRules wText "t").summary.total_weight
        = (((wRules.map (fun p => p.2.checks)).flatten).map (fun c => c.weight.getD 5)).sum
      ∧ (check_compliance wRules wText "t").summary.achieved_weight
          ≤ (check_compliance wRules wText "t").summary.total_weight
      ∧ (check_compliance wRules wText "t").summary.compliant
        = ((((check_compliance wRules wText "t").detailed_results).map (·.checks)).flatten).countP
            (fun c => decide (c.status = Status.COMPLIANT))
      ∧ (check_compliance wRules wText "t").summary.non_compliant
        = ((((check_compliance wRules wText "t").detailed_results).map (·.checks)).flatten).countP
            (fun c => decide (c.status = Status.NON_COMPLIANT))
      ∧ (check_compliance wRules wText "t").summary.missing
        = ((((check_compliance wRules wText "t").detailed_results).map (·.checks)).flatten).countP
            (fun c => decide (c.status = Status.MISSING))
      ∧ (check_compliance wRules wText "t").summary.compliant
          + (check_compliance wRules wText "t").summary.non_compliant
          + (check_compliance wRules wText "t").summary.missing
        = (check_compliance wRules wText "t").summary.total_checks) :=
  ⟨by decide, summary_invariants wRules wText "t" (by decide)⟩

/-! ### C8: recommendation structure -/

/-- C8: the recommendation list is the urgent-summary segment (present
exactly when some gap belongs to a HIGH-priority standard), followed by one
itemized line for at most the first 5 gaps in report order, followed by the
score-keyed closing line (comprehensive review below 60, focus line below
80, nothing at 80 or above). -/
theorem generate_recommendations_structure (rep : ComplianceReport) :
    generate_recommendations rep =
      (if ((get_non_compliant_items rep).filter (fun nc => nc.priority == "HIGH")).length > 0
       then [urgent_line
              ((get_non_compliant_items rep).filter (fun nc => nc.priority == "HIGH")).length]
       else [])
      ++ ((get_non_compliant_items rep).take 5).map item_line
      ++ (if rep.summary.compliance_score < 60 then [comprehensive_line]
          else if rep.summary.compliance_score < 80 then [focus_line] else [])
    ∧ (((get_non_compliant_items rep).take 5).map item_line).length ≤ 5
    ∧ (((get_non_compliant_items rep).filter (fun nc => nc.priority == "HIGH")).length > 0
        ↔ ∃ it ∈ get_non_compliant_items rep, it.priority = "HIGH") := by
  refine ⟨?_, ?_, ?_⟩
  · simp only [generate_recommendations]
    split_ifs <;> simp [List.append_assoc]
  · simp only [List.length_map, List.length_take]
    omega
  · constructor
    · intro h
      have hne : (get_non_compliant_items rep).filter (fun nc => nc.priority == "HIGH") ≠ [] := by
        intro he
        rw [he] at h
        simp at h
      obtain ⟨it, hit⟩ := List.exists_mem_of_ne_nil _ hne
      rw [List.mem_filter] at hit
      exact ⟨it, hit.1, by simpa using hit.2⟩
    · rintro ⟨it, hmem, hpr⟩
      have hit : it ∈ (get_non_compliant_items rep).filter (fun nc => nc.priority == "HIGH") :=
        List.mem_filter.mpr ⟨hmem, by simp [hpr]⟩
      rcases h : (get_non_compliant_items rep).filter (fun nc => nc.priority == "HIGH") with _ | _
      · rw [h] at hit
        cases hit
      · rw [h]
        simp

/-! ### C7: evidence extraction -/

/-- Every token produced by `pySplitAux` is nonempty and whitespace-free,
given the accumulated partial word is whitespace-free. -/
lemma pySplitAux_words :
    ∀ (s acc : List Char), (∀ c ∈ acc, pyIsSpace c = false) →
      ∀ w ∈ pySplitAux s acc, w ≠ [] ∧ ∀ c ∈ w, pyIsSpace c = false := by
  intro s
  induction s with
  | nil =>
      intro acc hacc w hw
      cases acc with
      | nil => simp [pySplitAux] at hw
      | cons a as =>
          simp [pySplitAux] at hw
          subst hw
          refine ⟨by simp, ?_⟩
          intro c hc
          apply hacc
          simp only [List.mem_append, List.mem_reverse, List.mem_singleton] at hc
          rw [List.mem_cons]
          tauto
  | cons c rest ih =>
      intro acc hacc w hw
      by_cases hsp : pyIsSpace c = true
      · cases acc with
        | nil =>
            simp [pySplitAux, hsp] at hw
            exact ih [] (by simp) w hw
        | cons a as =>
            simp [pySplitAux, hsp] at hw
            rcases hw with rfl | hw
            · refine ⟨by simp, ?_⟩
              intro c' hc'
              apply hacc
              simp only [List.mem_append, List.mem_reverse, List.mem_singleton] at hc'
              rw [List.mem_cons]
              tauto
            · exact ih [] (by simp) w hw
      · have hsp' : pyIsSpace c = false := by
          cases h : pyIsSpace c
          · rfl
          · exact absurd h hsp
        simp only [pySplitAux, hsp', Bool.false_eq_true, if_false] at hw
        refine ih (c :: acc) ?_ w hw
        intro x hx
        rw [List.mem_cons] at hx
        rcases hx with rfl | hx
        · exact hsp'
        · exact hacc x hx

/-- The function `rstrip` yields a front part of its input. -/
lemma rstrip_isPre (s : List Char) : rstrip s <+: s := by
  unfold rstrip
  have h2 := (List.dropWhile_suffix (l := s.reverse) pyIsSpace).reverse
  rwa [List.reverse_reverse] at h2

/-- The function `pyStrip` yields a contiguous part of its input. -/
lemma pyStrip_isSub (s : List Char) : pyStrip s <:+: s := by
  unfold pyStrip
  have h1 : rstrip (lstrip s) <+: lstrip s := rstrip_isPre _
  have h2 : lstrip s <:+ s := List.dropWhile_suffix pyIsSpace
  exact h1.isInfix.trans h2.isInfix

/-- A drop-then-take slice is a contiguous part of the list. -/
lemma slice_isSub (l : List Char) (a b : Nat) : (l.drop a).take b <:+: l := by
  have h1 : (l.drop a).take b <+: l.drop a := List.take_prefix b (l.drop a)
  have h2 : l.drop a <:+ l := List.drop_suffix a l
  exact h1.isInfix.trans h2.isInfix

/-- Unfolding of `_extract_context` on a found keyword, at the found index. -/
lemma extract_context_found {text keyword : List Char} {i : Nat}
    (h : strFind text keyword = some i) :
    extract_context text keyword
      = pyJoinSpace (pySplit (pyStrip ((text.drop (i - 100)).take
          (min (i + keyword.length + 100) text.length - (i - 100))))) := by
  unfold extract_context
  rw [h]

/-- C7: when the keyword is found at offset `i`, the evidence is the window
`[i - 100, i + len(keyword) + 100]` clamped to the text bounds, trimmed and
with whitespace runs collapsed — the output is a space-join of nonempty
whitespace-free words. -/
theorem extract_context_spec (text keyword : List Char) (i : Nat)
    (h : strFind text keyword = some i) :
    extract_context text keyword
      = pyJoinSpace (pySplit (pyStrip ((text.drop (i - 100)).take
          (min (i + keyword.length + 100) text.length - (i - 100)))))
    ∧ ∃ ws : List (List Char),
        (∀ w ∈ ws, w ≠ [] ∧ ∀ c ∈ w, pyIsSpace c = false)
        ∧ extract_context text keyword = pyJoinSpace ws := by
  refine ⟨extract_context_found h,
    ⟨pySplit (pyStrip ((text.drop (i - 100)).take
        (min (i + keyword.length + 100) text.length - (i - 100)))),
     ?_, extract_context_found h⟩⟩
  intro w hw
  exact pySplitAux_words _ [] (by simp) w hw

/-- Witness for C7 at a concrete text with the keyword found at offset 2. -/
theorem extract_context_spec_witness :
    strFind (String.toList "  key   word  ") (String.toList "key") = some 2
    ∧ (extract_context (String.toList "  key   word  ") (String.toList "key")
        = pyJoinSpace (pySplit (pyStrip (((String.toList "  key   word  ").drop (2 - 100)).take
            (min (2 + (String.toList "key").length + 100)
              (String.toList "  key   word  ").length - (2 - 100)))))
      ∧ ∃ ws : List (List Char),
          (∀ w ∈ ws, w ≠ [] ∧ ∀ c ∈ w, pyIsSpace c = false)
          ∧ extract_context (String.toList "  key   word  ") (String.toList "key")
              = pyJoinSpace ws) :=
  ⟨by decide,
   extract_context_spec (String.toList "  key   word  ") (String.toList "key") 2 (by decide)⟩

/-! ### C10: evidence comes from the lowercased text -/

/-- Any evidence returned by the keyword search is a collapsed contiguous
part of the searched text. -/
lemma search_keywords_evidence {tl : List Char} {kws : List (List Char)} {ev : List Char}
    (h : search_keywords tl kws = some ev) :
    ∃ s, s <:+: tl ∧ ev = pyJoinSpace (pySplit s) := by
  induction kws with
  | nil => simp [search_keywords] at h
  | cons k rest ih =>
      simp only [search_keywords] at h
      by_cases hc : strContains tl (pyLower k) = true
      · rw [if_pos hc] at h
        have hev : extract_context tl (pyLower k) = ev := Option.some.inj h
        obtain ⟨i, hi⟩ := Option.isSome_iff_exists.mp hc
        refine ⟨pyStrip ((tl.drop (i - 100)).take
          (min (i + (pyLower k).length + 100) tl.length - (i - 100))), ?_, ?_⟩
        · exact (pyStrip_isSub _).trans (slice_isSub tl _ _)
        · rw [← hev, extract_context_found hi]
      · rw [if_neg hc] at h
        exact ih h

/-- C10: every evidence snippet of every check result in the report is, up to
the whitespace collapsing of `_extract_context`, a contiguous part of the
LOWERCASED document text — `check_compliance` lowercases the document once
and all evidence is extracted from that lowercased copy. -/
theorem evidence_from_lowercased_text (rules : RuleSet) (text : List Char) (now : String) :
    ∀ sr ∈ (check_compliance rules text now).detailed_results,
      ∀ cr ∈ sr.checks, ∀ ev : List Char, cr.evidence = some ev →
        ∃ s, s <:+: pyLower text ∧ ev = pyJoinSpace (pySplit s) := by
  intro sr hsr cr hcr ev hev
  rw [check_compliance_detailed, List.mem_map] at hsr
  obtain ⟨p, hp, rfl⟩ := hsr
  have hcr' : cr ∈ p.2.checks.map (run_check (pyLower text)) := hcr
  rw [List.mem_map] at hcr'
  obtain ⟨c, hc, rfl⟩ := hcr'
  have hev' : search_keywords (pyLower text) c.keywords = some ev := hev
  exact search_keywords_evidence hev'

/-- Concrete document with mixed casing, for the C10 witness. -/
def wTextMixed : List Char := String.toList "The BALANCE Sheet section."

/-- The standard result the C10 witness picks out of the report. -/
def wSrMixed : StandardResult :=
  run_standard (pyLower wTextMixed) "S1"
    { name := "X", category := none, priority := some "HIGH",
      checks := [wCheckMandatory, wCheckOptional] }

/-- The check result with evidence the C10 witness picks. -/
def wCrMixed : CheckResult := run_check (pyLower wTextMixed) wCheckMandatory

/-- Witness for C10 at a concrete mixed-case document. -/
theorem evidence_from_lowercased_text_witness :
    ∃ s, s <:+: pyLower wTextMixed
      ∧ wCrMixed.evidence.getD [] = pyJoinSpace (pySplit s) :=
  evidence_from_lowercased_text wRules wTextMixed "t" wSrMixed (by decide)
    wCrMixed (by decide) (wCrMixed.evidence.getD []) (by decide)

end DocAI
